import Mathlib

/-!
Shallow embedding of `src/src/main.rs` of pi-home-dashboard: a small axum web
backend with an in-memory session table, a SQLite sensor reader, a weather
proxy and three HTML routes.

Modelling conventions:
* Timestamps (`SystemTime`) are natural numbers counting whole seconds, the
  granularity at which the code compares ages (`Duration::as_secs`).
* The session table (`HashMap<String, UserSession>`) is an association list
  with unique keys; `insert` overwrites, matching `HashMap::insert`.
* A request that never returns normally — a failing `.unwrap()`, or the
  self-deadlock of re-locking a mutex whose guard is still held — is the
  `Except.error` branch of the handler's result, tagged with which abnormal
  outcome fired.
* Sources of nondeterminism (the cookie jar, the current time, the generated
  UUID, the filesystem, the database, the upstream HTTP reply) are explicit
  parameters of the handlers.
* `f32`/`f64` sensor and weather values are only moved around, never computed
  with, so they are modelled as rationals.
-/

/-- `const SESSION_TIMEOUT_SECS: u64 = 300;` -/
def SESSION_TIMEOUT_SECS : Nat := 300

/-- `struct UserSession { username: String, session_start: SystemTime }`,
with `session_start` in whole seconds. -/
structure UserSession where
  username : String
  session_start : Nat
  deriving Repr, DecidableEq

/-- The session table `HashMap<String, UserSession>` as an association list. -/
abbrev Sessions := List (String × UserSession)

/-- `sessions.get(k)`: first (unique) binding of the key. -/
def lookupS (m : Sessions) (k : String) : Option UserSession :=
  List.lookup k m

/-- `HashMap::insert`: the new binding replaces any old binding of `k`. -/
def insertS (k : String) (v : UserSession) (m : Sessions) : Sessions :=
  (k, v) :: List.filter (fun p => p.1 != k) m

/-- `HashMap::remove`: drops the binding of `k` if present. -/
def removeS (k : String) (m : Sessions) : Sessions :=
  List.filter (fun p => p.1 != k) m

/-- `SystemTime::elapsed()` at whole-second granularity: errors when the
current time is earlier than the stored instant (clock moved backwards). -/
def elapsedSecs (start now : Nat) : Option Nat :=
  if now < start then none else some (now - start)

/-- The abnormal outcomes reachable inside the `index` handler: the two
panicking unwraps, and the expired branch's second `state.sessions.lock()`
taken while the guard from the first lock is still alive — `std::sync::Mutex`
is not reentrant, so that call never returns (deadlock or panic). -/
inductive IndexPanic where
  | clockError
  | templateMissing
  | selfDeadlock
  deriving Repr, DecidableEq

/-- Body built in the expired-session branch of `index`. The running program
never actually delivers it: the branch re-locks the held sessions mutex
first, which does not return. -/
def expiredBody : String :=
  "<h1>Session expired. <a href=\x27/login\x27>Login again</a></h1>"

/-- Body returned by the not-logged-in branch of `index`. -/
def notLoggedInBody : String :=
  "<h1>You are not logged in. <a href=\x27/login\x27>Login</a></h1>"

/-- The `index` handler (`GET /`). Parameters: the session table, the
`session_id` cookie (if any), the current time, and the content of the
dashboard template file (`none` = read error). Returns the response body and
the session table after the request, or the abnormal outcome that fired. The
expired branch is `.error .selfDeadlock`: it calls `state.sessions.lock()`
again while the guard of the first lock is still held, so the remove and the
expiry body it would produce are never reached. -/
def index (sessions : Sessions) (cookie : Option String) (now : Nat)
    (template : Option String) : Except IndexPanic (String × Sessions) :=
  match cookie with
  | some sid =>
    match lookupS sessions sid with
    | some us =>
      match elapsedSecs us.session_start now with
      | none => .error .clockError
      | some e =>
        if e > SESSION_TIMEOUT_SECS then
          .error .selfDeadlock
        else
          match template with
          | none => .error .templateMissing
          | some html => .ok (html, sessions)
    | none => .ok (notLoggedInBody, sessions)
  | none => .ok (notLoggedInBody, sessions)

/-- `struct LoginForm { username: String, password: String }` -/
structure LoginForm where
  username : String
  password : String
  deriving Repr, DecidableEq

/-- The two redirect targets of `handle_login`. -/
inductive Redirect where
  | toRoot
  | toLogin
  deriving Repr, DecidableEq

/-- The `handle_login` handler (`POST /login`). Parameters: the form, the
token produced by `Uuid::new_v4().to_string()` for this call, the current
time, and the session table. Returns the table after the request, the
`session_id` cookie added to the jar (if any), and the redirect. -/
def handle_login (form : LoginForm) (gen : String) (now : Nat)
    (sessions : Sessions) : Sessions × Option String × Redirect :=
  if form.username = "admin" ∧ form.password = "raspberry" then
    (insertS gen ⟨form.username, now⟩ sessions, some gen, .toRoot)
  else
    (sessions, none, .toLogin)

/-- The `show_login` handler (`GET /login`): the login template content, or
the inline fallback when the read fails. -/
def loginFallbackBody : String := "<h1>Login page missing</h1>"

/-- `show_login`, parameterised by the content of the login template file
(`none` = read error). -/
def show_login (template : Option String) : String :=
  template.getD loginFallbackBody

/-- `struct SensorData` — one row of the sensor table. -/
structure SensorData where
  timestamp : String
  bmp280_temp : Rat
  bmp280_pressure : Rat
  htu21d_temp : Rat
  htu21d_humidity : Rat
  deriving Repr, DecidableEq

/-- State of the SQLite collaborator as `get_data` observes it: whether
`Connection::open` succeeds, whether `conn.prepare` succeeds, whether
`stmt.query_map` succeeds, and the row results the iterator yields (a row is
`Except.error ()` when one of its `row.get(i)?` calls fails). -/
structure Db where
  openOk : Bool
  prepareOk : Bool
  queryOk : Bool
  rows : List (Except Unit SensorData)

/-- The `get_data` handler (`GET /data`). `none` models the panic of
`Connection::open(DB_FILE).unwrap()`; otherwise the JSON body is the list of
successfully mapped rows (failed `prepare`/`query_map` leave it empty). -/
def get_data (db : Db) : Option (List SensorData) :=
  if db.openOk then
    some (if db.prepareOk then
            if db.queryOk then
              db.rows.filterMap (fun r => r.toOption)
            else []
          else [])
  else none

/-- A `serde_json::Value`. -/
inductive Json where
  | null
  | bool (b : Bool)
  | num (q : Rat)
  | str (s : String)
  | arr (elems : List Json)
  | obj (fields : List (String × Json))

/-- `value[key]` on a `serde_json::Value`: field of an object, `Null`
otherwise (missing key included). -/
def jIndex (j : Json) (k : String) : Json :=
  match j with
  | .obj fields => (List.lookup k fields).getD .null
  | _ => .null

/-- `Value::as_f64`: `Some` exactly on numbers. -/
def asF64 (j : Json) : Option Rat :=
  match j with
  | .num q => some q
  | _ => none

/-- `Value::as_str`: `Some` exactly on strings. -/
def asStr (j : Json) : Option String :=
  match j with
  | .str s => some s
  | _ => none

/-- `struct Weather` — the serialized weather snapshot. -/
structure Weather where
  external_temp : Rat
  external_windspeed : Rat
  external_time : String
  deriving Repr, DecidableEq

/-- The fallback snapshot returned when any step fails. -/
def defaultWeather : Weather :=
  { external_temp := 0, external_windspeed := 0, external_time := "N/A" }

/-- What `reqwest::get(url).await` produced: a network error, or a reply with
a status (success or not) and a body that parses as JSON or not. -/
inductive Upstream where
  | netError
  | reply (success : Bool) (body : Except Unit Json)

/-- The `external_weather` handler (`GET /external-weather`): builds the
snapshot from `json["current_weather"]` when the call succeeded, the status
is a success and the body parsed; every other path falls through to the
default snapshot. -/
def external_weather (u : Upstream) : Weather :=
  match u with
  | .reply true (.ok j) =>
    let w := jIndex j "current_weather"
    { external_temp := (asF64 (jIndex w "temperature")).getD 0
      external_windspeed := (asF64 (jIndex w "windspeed")).getD 0
      external_time := (asStr (jIndex w "time")).getD "N/A" }
  | _ => defaultWeather

/-- Session tables reachable from the initial empty table by any interleaving
of `handle_login` and `index` requests (`get_data`, `external_weather` and
`show_login` never touch the table). -/
inductive Reachable : Sessions → Prop where
  | init : Reachable []
  | login (s : Sessions) (form : LoginForm) (gen : String) (now : Nat) :
      Reachable s → Reachable (handle_login form gen now s).1
  | indexStep (s : Sessions) (cookie : Option String) (now : Nat)
      (template : Option String) (body : String) (s' : Sessions) :
      Reachable s → index s cookie now template = .ok (body, s') →
      Reachable s'

/-! ## Helper lemmas about the session table -/

theorem lookupS_nil (k : String) : lookupS [] k = none := rfl

theorem lookupS_cons (p : String × UserSession) (m : Sessions) (k : String) :
    lookupS (p :: m) k = if k = p.1 then some p.2 else lookupS m k := by
  cases p with
  | mk a b =>
    simp only [lookupS, List.lookup]
    by_cases h : k = a
    · simp [h]
    · rw [beq_eq_false_iff_ne.mpr h]
      simp [h]

theorem lookupS_removeS_self (m : Sessions) (k : String) :
    lookupS (removeS k m) k = none := by
  induction m with
  | nil => rfl
  | cons p m ih =>
    by_cases h : p.1 = k
    · simpa [removeS, List.filter_cons, h] using ih
    · simp only [removeS, List.filter_cons, bne_iff_ne, ne_eq, h,
        not_false_eq_true, if_true]
      rw [lookupS_cons]
      simp only [removeS] at ih
      simp [Ne.symm h, ih]

theorem lookupS_removeS_ne (m : Sessions) (k t : String) (h : t ≠ k) :
    lookupS (removeS k m) t = lookupS m t := by
  induction m with
  | nil => rfl
  | cons p m ih =>
    by_cases hp : p.1 = k
    · rw [removeS, List.filter_cons]
      simp only [hp, bne_self_eq_false, if_false]
      rw [lookupS_cons]
      simp only [hp, h, if_false]
      exact ih
    · rw [removeS, List.filter_cons]
      simp only [bne_iff_ne, ne_eq, hp, not_false_eq_true, if_true]
      rw [lookupS_cons, lookupS_cons]
      simp only [removeS] at ih
      by_cases ht : t = p.1
      · simp [ht]
      · simp [ht, ih]

theorem lookupS_insertS_self (m : Sessions) (k : String) (v : UserSession) :
    lookupS (insertS k v m) k = some v := by
  rw [insertS, lookupS_cons]
  simp

theorem lookupS_insertS_ne (m : Sessions) (k t : String) (v : UserSession)
    (h : t ≠ k) : lookupS (insertS k v m) t = lookupS m t := by
  rw [insertS, lookupS_cons]
  simp only [h, if_false]
  exact lookupS_removeS_ne m k t h

theorem lookupS_mem (m : Sessions) (t : String) (v : UserSession)
    (h : lookupS m t = some v) : (t, v) ∈ m := by
  induction m with
  | nil => simp [lookupS, List.lookup] at h
  | cons p m ih =>
    rw [lookupS_cons] at h
    by_cases hp : t = p.1
    · simp only [hp, if_true, Option.some.injEq] at h
      cases p with
      | mk a b =>
        cases hp
        cases h
        exact List.mem_cons_self _ _
    · simp only [hp, if_false] at h
      exact List.mem_cons_of_mem _ (ih h)

/-! ## Claim theorems -/

/-- C1 (code bug): the claimed behavior — return the expiry notice and
remove the entry — is what the spec and the branch's own body intend, but at
an expired session the handler first re-locks the sessions mutex whose guard
is still held, so the request never returns and the entry is never removed.
Evaluating the model at a concrete expired session hits the self-deadlock. -/
theorem c1_expired_session_deadlocks :
    index [("t", ⟨"admin", 0⟩)] (some "t") 301 (some "dash") =
      .error .selfDeadlock := by
  rfl

/-- C2: a lookup inside the timeout window returns the dashboard body and
leaves the whole session table — in particular the stored `session_start` —
unchanged: no sliding expiry. -/
theorem c2_no_sliding_expiry (s : Sessions) (sid : String) (us : UserSession)
    (now : Nat) (html : String)
    (hlook : lookupS s sid = some us)
    (hle : us.session_start ≤ now)
    (hwin : now - us.session_start ≤ SESSION_TIMEOUT_SECS) :
    index s (some sid) now (some html) = .ok (html, s) := by
  simp only [index, hlook, elapsedSecs]
  rw [if_neg (Nat.not_lt.mpr hle)]
  simp only [if_neg (Nat.not_lt.mpr hwin)]

/-- C2 witness at a concrete table and clock (age exactly at the limit). -/
theorem c2_no_sliding_expiry_witness :
    index [("t", ⟨"admin", 0⟩)] (some "t") 300 (some "dash") =
      .ok ("dash", [("t", ⟨"admin", 0⟩)]) :=
  c2_no_sliding_expiry [("t", ⟨"admin", 0⟩)] "t" ⟨"admin", 0⟩ 300 "dash"
    (by decide) (by decide) (by decide)

/-- C3: with no `session_id` cookie, or with a token absent from the table,
`GET /` returns the not-logged-in body and leaves the table unchanged. -/
theorem c3_unknown_token_notfound :
    (∀ (s : Sessions) (now : Nat) (tpl : Option String),
      index s none now tpl = .ok (notLoggedInBody, s)) ∧
    (∀ (s : Sessions) (sid : String) (now : Nat) (tpl : Option String),
      lookupS s sid = none →
      index s (some sid) now tpl = .ok (notLoggedInBody, s)) := by
  constructor
  · intro s now tpl
    rfl
  · intro s sid now tpl habs
    simp only [index, habs]

/-- C3 witness: no cookie, and a token the store never issued. -/
theorem c3_unknown_token_notfound_witness :
    index [("t", ⟨"admin", 0⟩)] none 7 none =
      .ok (notLoggedInBody, [("t", ⟨"admin", 0⟩)]) ∧
    index [("t", ⟨"admin", 0⟩)] (some "other") 7 none =
      .ok (notLoggedInBody, [("t", ⟨"admin", 0⟩)]) :=
  ⟨c3_unknown_token_notfound.1 [("t", ⟨"admin", 0⟩)] 7 none,
   c3_unknown_token_notfound.2 [("t", ⟨"admin", 0⟩)] "other" 7 none (by decide)⟩

/-- C4 counterexample: when `Connection::open` fails, `get_data` panics
(`.unwrap()` on the open result) instead of returning the empty sequence. -/
theorem c4_open_failure_panics :
    get_data { openOk := false, prepareOk := true, queryOk := true,
               rows := [] } = none ∧
    get_data { openOk := false, prepareOk := true, queryOk := true,
               rows := [] } ≠ some [] := by
  constructor
  · rfl
  · intro h
    exact Option.noConfusion h

/-- C4 (amended): once the connection opens, every later failure — a failed
`prepare`, a failed `query_map`, or a table with zero rows — yields the empty
JSON sequence rather than an error. -/
theorem c4_empty_on_query_failure (db : Db) (hopen : db.openOk = true)
    (hfail : db.prepareOk = false ∨ db.queryOk = false ∨ db.rows = []) :
    get_data db = some [] := by
  rcases hfail with h | h | h
  · simp [get_data, hopen, h]
  · simp [get_data, hopen, h]
  · simp [get_data, hopen, h]

/-- C4 witness: open succeeds, prepare fails. -/
theorem c4_empty_on_query_failure_witness :
    get_data { openOk := true, prepareOk := false, queryOk := true,
               rows := [] } = some [] :=
  c4_empty_on_query_failure
    { openOk := true, prepareOk := false, queryOk := true, rows := [] }
    rfl (Or.inl rfl)

/-- C5 counterexample: `GET /` with a valid, non-expired session but a
missing dashboard template panics (`read_to_string(...).unwrap()`) instead of
serving a fallback page. -/
theorem c5_dashboard_template_panics :
    index [("t", ⟨"admin", 0⟩)] (some "t") 10 none =
      .error .templateMissing := by
  rfl

/-- C5 (amended): `GET /login` with a missing login template returns the
inline fallback body, but `GET /` with a valid session and a missing
dashboard template panics rather than falling back. -/
theorem c5_login_fallback_only (s : Sessions) (sid : String)
    (us : UserSession) (now : Nat)
    (hlook : lookupS s sid = some us)
    (hle : us.session_start ≤ now)
    (hwin : now - us.session_start ≤ SESSION_TIMEOUT_SECS) :
    show_login none = loginFallbackBody ∧
    index s (some sid) now none = .error .templateMissing := by
  constructor
  · rfl
  · simp only [index, hlook, elapsedSecs]
    rw [if_neg (Nat.not_lt.mpr hle)]
    simp only [if_neg (Nat.not_lt.mpr hwin)]

/-- C5 witness at a concrete valid session. -/
theorem c5_login_fallback_only_witness :
    show_login none = loginFallbackBody ∧
    index [("u", ⟨"admin", 2⟩)] (some "u") 30 none =
      .error .templateMissing :=
  c5_login_fallback_only [("u", ⟨"admin", 2⟩)] "u" ⟨"admin", 2⟩ 30
    (by decide) (by decide) (by decide)

/-- C6 counterexample: with a stored session whose `session_start` is later
than the current time (clock moved backwards), `GET /` panics on
`elapsed().unwrap()` instead of returning a response — the handler is not
total over all clock states. -/
theorem c6_clock_state_panics :
    index [("t", ⟨"admin", 5⟩)] (some "t") 3 (some "dash") =
      .error .clockError := by
  rfl

/-- C6 (amended): whenever the clock is at or after every stored session's
creation time and the dashboard template is readable, `GET /` either returns
a response — whose body is then one of the pages actually deliverable, the
dashboard template or the not-logged-in notice, with no redirect — or, in the
expired-session case, hangs on the mutex re-lock instead of serving the
expiry notice. -/
theorem c6_two_pages_or_deadlock (s : Sessions) (cookie : Option String)
    (now : Nat) (html : String)
    (hclock : ∀ p ∈ s, p.2.session_start ≤ now) :
    (∃ (body : String) (s' : Sessions),
      index s cookie now (some html) = .ok (body, s') ∧
      (body = html ∨ body = notLoggedInBody)) ∨
    index s cookie now (some html) = .error .selfDeadlock := by
  cases cookie with
  | none => exact Or.inl ⟨notLoggedInBody, s, rfl, Or.inr rfl⟩
  | some sid =>
    cases hl : lookupS s sid with
    | none =>
      refine Or.inl ⟨notLoggedInBody, s, ?_, Or.inr rfl⟩
      simp only [index, hl]
    | some us =>
      have hle : us.session_start ≤ now := hclock (sid, us) (lookupS_mem s sid us hl)
      by_cases hexp : now - us.session_start > SESSION_TIMEOUT_SECS
      · refine Or.inr ?_
        simp only [index, hl, elapsedSecs]
        rw [if_neg (Nat.not_lt.mpr hle)]
        simp only [if_pos hexp]
      · refine Or.inl ⟨html, s, ?_, Or.inl rfl⟩
        simp only [index, hl, elapsedSecs]
        rw [if_neg (Nat.not_lt.mpr hle)]
        simp only [if_neg hexp]

/-- C6 witness at a concrete table and clock. -/
theorem c6_two_pages_or_deadlock_witness :
    (∃ (body : String) (s' : Sessions),
      index [("t", ⟨"admin", 0⟩)] (some "t") 42 (some "dash") =
        .ok (body, s') ∧
      (body = "dash" ∨ body = notLoggedInBody)) ∨
    index [("t", ⟨"admin", 0⟩)] (some "t") 42 (some "dash") =
      .error .selfDeadlock :=
  c6_two_pages_or_deadlock [("t", ⟨"admin", 0⟩)] (some "t") 42 "dash"
    (by decide)

/-- C7: every upstream failure (network error, non-success status, JSON parse
failure) yields exactly the all-default snapshot, and on a parsed body each
field is extracted independently: a missing/wrongly-typed field falls back to
its own default while a present field is passed through. -/
theorem c7_weather_default_on_failure :
    external_weather .netError = defaultWeather ∧
    (∀ b, external_weather (.reply false b) = defaultWeather) ∧
    external_weather (.reply true (.error ())) = defaultWeather ∧
    (∀ j, asF64 (jIndex (jIndex j "current_weather") "temperature") = none →
      (external_weather (.reply true (.ok j))).external_temp = 0) ∧
    (∀ j q, asF64 (jIndex (jIndex j "current_weather") "temperature") = some q →
      (external_weather (.reply true (.ok j))).external_temp = q) ∧
    (∀ j, asF64 (jIndex (jIndex j "current_weather") "windspeed") = none →
      (external_weather (.reply true (.ok j))).external_windspeed = 0) ∧
    (∀ j q, asF64 (jIndex (jIndex j "current_weather") "windspeed") = some q →
      (external_weather (.reply true (.ok j))).external_windspeed = q) ∧
    (∀ j, asStr (jIndex (jIndex j "current_weather") "time") = none →
      (external_weather (.reply true (.ok j))).external_time = "N/A") ∧
    (∀ j t, asStr (jIndex (jIndex j "current_weather") "time") = some t →
      (external_weather (.reply true (.ok j))).external_time = t) := by
  refine ⟨rfl, ?_, rfl, ?_, ?_, ?_, ?_, ?_, ?_⟩
  · intro b
    cases b with
    | ok j => rfl
    | error e => rfl
  · intro j h
    simp [external_weather, h]
  · intro j q h
    simp [external_weather, h]
  · intro j h
    simp [external_weather, h]
  · intro j q h
    simp [external_weather, h]
  · intro j h
    simp [external_weather, h]
  · intro j t h
    simp [external_weather, h]

/-- C7 witness: a network error, a parsed body with a numeric temperature, a
missing windspeed and a string time. -/
theorem c7_weather_default_on_failure_witness :
    external_weather .netError = defaultWeather ∧
    external_weather (.reply false (.ok .null)) = defaultWeather ∧
    external_weather (.reply true (.error ())) = defaultWeather ∧
    (external_weather (.reply true (.ok (Json.obj [("current_weather",
        Json.obj [("temperature", Json.num 7), ("time", Json.str "x")])])))
      ).external_temp = 7 ∧
    (external_weather (.reply true (.ok (Json.obj [("current_weather",
        Json.obj [("temperature", Json.num 7), ("time", Json.str "x")])])))
      ).external_windspeed = 0 ∧
    (external_weather (.reply true (.ok (Json.obj [("current_weather",
        Json.obj [("temperature", Json.num 7), ("time", Json.str "x")])])))
      ).external_time = "x" := by
  obtain ⟨h1, h2, h3, h4, h5, h6, h7, h8, h9⟩ := c7_weather_default_on_failure
  exact ⟨h1, h2 (.ok .null), h3, h5 _ 7 rfl, h6 _ rfl, h9 _ "x" rfl⟩

/-- C8 counterexample: `handle_login` performs no collision check, so when
the generated UUID string happens to equal a currently-active token the old
session is silently overwritten and the returned token is not distinct from
the active set. -/
theorem c8_collision_overwrites :
    (handle_login ⟨"admin", "raspberry"⟩ "t" 5 [("t", ⟨"admin", 0⟩)]).2.1 =
      some "t" ∧
    lookupS [("t", ⟨"admin", 0⟩)] "t" = some ⟨"admin", 0⟩ ∧
    lookupS (handle_login ⟨"admin", "raspberry"⟩ "t" 5
      [("t", ⟨"admin", 0⟩)]).1 "t" = some ⟨"admin", 5⟩ := by
  refine ⟨by decide, by decide, by decide⟩

/-- C8 (amended): provided the token generated for this call is fresh (the
code relies on `Uuid::new_v4` collision-freeness and does not check), a
successful login returns that token as the cookie, the token differs from
every currently-active token, the new table maps it to the new session, and
every other entry of the table is untouched. -/
theorem c8_fresh_token_unique (form : LoginForm) (gen : String) (now : Nat)
    (s : Sessions)
    (hu : form.username = "admin") (hp : form.password = "raspberry")
    (hfresh : lookupS s gen = none) :
    (handle_login form gen now s).2.1 = some gen ∧
    (∀ t us, lookupS s t = some us → t ≠ gen) ∧
    lookupS (handle_login form gen now s).1 gen = some ⟨"admin", now⟩ ∧
    (∀ t, t ≠ gen →
      lookupS (handle_login form gen now s).1 t = lookupS s t) := by
  have hc : form.username = "admin" ∧ form.password = "raspberry" := ⟨hu, hp⟩
  refine ⟨?_, ?_, ?_, ?_⟩
  · simp only [handle_login, if_pos hc]
  · intro t us hl ht
    rw [ht, hfresh] at hl
    exact Option.noConfusion hl
  · simp only [handle_login, if_pos hc]
    rw [hu]
    exact lookupS_insertS_self s gen ⟨"admin", now⟩
  · intro t ht
    simp only [handle_login, if_pos hc]
    exact lookupS_insertS_ne s gen t ⟨form.username, now⟩ ht

/-- C8 witness: a fresh token over a one-entry table. -/
theorem c8_fresh_token_unique_witness :
    (handle_login ⟨"admin", "raspberry"⟩ "u" 9 [("t", ⟨"admin", 0⟩)]).2.1 =
      some "u" ∧
    lookupS (handle_login ⟨"admin", "raspberry"⟩ "u" 9
      [("t", ⟨"admin", 0⟩)]).1 "u" = some ⟨"admin", 9⟩ ∧
    lookupS (handle_login ⟨"admin", "raspberry"⟩ "u" 9
      [("t", ⟨"admin", 0⟩)]).1 "t" = lookupS [("t", ⟨"admin", 0⟩)] "t" := by
  have h := c8_fresh_token_unique ⟨"admin", "raspberry"⟩ "u" 9
    [("t", ⟨"admin", 0⟩)] rfl rfl (by decide)
  exact ⟨h.1, h.2.2.1, h.2.2.2 "t" (by decide)⟩

/-- After any `index` request that returns, the resulting table is either
the old table or the old table with one token removed (with the deadlocking
expired branch, only the first alternative actually occurs). -/
theorem index_table_shape (s : Sessions) (cookie : Option String) (now : Nat)
    (template : Option String) (body : String) (s' : Sessions)
    (heq : index s cookie now template = .ok (body, s')) :
    s' = s ∨ ∃ sid, s' = removeS sid s := by
  unfold index at heq
  repeat' split at heq
  all_goals first
    | exact Except.noConfusion heq
    | (injection heq with h2
       exact Or.inl (congrArg Prod.snd h2).symm)

/-- C9: in every session table reachable from the initial empty table by any
sequence of requests, every stored session has username `"admin"`: the only
inserting handler (`handle_login`) inserts only after the credential check,
and no handler rewrites a stored username. -/
theorem c9_only_admin_stored (s : Sessions) (hr : Reachable s) :
    ∀ (t : String) (us : UserSession),
      lookupS s t = some us → us.username = "admin" := by
  induction hr with
  | init =>
    intro t us h
    exact Option.noConfusion h
  | login s form gen now hr ih =>
    intro t us h
    by_cases hcred : form.username = "admin" ∧ form.password = "raspberry"
    · simp only [handle_login, if_pos hcred] at h
      by_cases ht : t = gen
      · subst ht
        rw [lookupS_insertS_self] at h
        injection h with h
        rw [← h]
        exact hcred.1
      · rw [lookupS_insertS_ne s gen t _ ht] at h
        exact ih t us h
    · simp only [handle_login, if_neg hcred] at h
      exact ih t us h
  | indexStep s cookie now template body s' hr heq ih =>
    intro t us h
    rcases index_table_shape s cookie now template body s' heq with rfl | ⟨sid, rfl⟩
    · exact ih t us h
    · by_cases ht : t = sid
      · subst ht
        rw [lookupS_removeS_self] at h
        exact Option.noConfusion h
      · rw [lookupS_removeS_ne s sid t ht] at h
        exact ih t us h

/-- C9 witness: the table reached by one successful login stores only
`"admin"`. -/
theorem c9_only_admin_stored_witness :
    (UserSession.mk "admin" 3).username = "admin" :=
  c9_only_admin_stored _
    (Reachable.login [] ⟨"admin", "raspberry"⟩ "tok" 3 Reachable.init)
    "tok" ⟨"admin", 3⟩ (by decide)

/-- C10: `session_start.elapsed().unwrap()` in `index` panics exactly when
the clock is behind the stored creation time: a stored session with
`session_start` in the future makes the looked-up branch panic, while if the
current time is at or after every stored session's creation time the clock
panic is unreachable for every cookie/template state. -/
theorem c10_elapsed_unwrap_panic :
    (∀ (s : Sessions) (sid : String) (us : UserSession) (now : Nat)
       (tpl : Option String),
      lookupS s sid = some us → now < us.session_start →
      index s (some sid) now tpl = .error .clockError) ∧
    (∀ (s : Sessions) (cookie : Option String) (now : Nat)
       (tpl : Option String),
      (∀ p ∈ s, p.2.session_start ≤ now) →
      index s cookie now tpl ≠ .error .clockError) := by
  constructor
  · intro s sid us now tpl hlook hlt
    simp only [index, hlook, elapsedSecs, if_pos hlt]
  · intro s cookie now tpl hclock
    cases cookie with
    | none =>
      intro h
      exact Except.noConfusion h
    | some sid =>
      cases hl : lookupS s sid with
      | none =>
        simp only [index, hl]
        intro h
        exact Except.noConfusion h
      | some us =>
        have hle : us.session_start ≤ now :=
          hclock (sid, us) (lookupS_mem s sid us hl)
        simp only [index, hl, elapsedSecs]
        rw [if_neg (Nat.not_lt.mpr hle)]
        by_cases hexp : now - us.session_start > SESSION_TIMEOUT_SECS
        · simp only [if_pos hexp]
          intro h
          injection h with h
          exact IndexPanic.noConfusion h
        · simp only [if_neg hexp]
          cases tpl with
          | none =>
            intro h
            injection h with h
            exact IndexPanic.noConfusion h
          | some html =>
            intro h
            exact Except.noConfusion h

/-- C10 witness: a concrete backwards clock panics; a concrete forwards
clock does not hit the clock panic. -/
theorem c10_elapsed_unwrap_panic_witness :
    index [("t", ⟨"admin", 5⟩)] (some "t") 3 none = .error .clockError ∧
    index [("t", ⟨"admin", 0⟩)] (some "t") 3 none ≠ .error .clockError :=
  ⟨c10_elapsed_unwrap_panic.1 [("t", ⟨"admin", 5⟩)] "t" ⟨"admin", 5⟩ 3 none
     (by decide) (by decide),
   c10_elapsed_unwrap_panic.2 [("t", ⟨"admin", 0⟩)] (some "t") 3 none
     (by decide)⟩
